import Mathlib

/-!
Shallow embedding of the ACTA website client scripts, covering the
consent manager (src/assets/js/consent.js) and the contact-form
anti-spam logic (src/assets/js/contact.js), together with theorems
about the behaviour described in the specification.

Strings are modelled as Lean `String` and, where JavaScript iterates
over characters, as `List Char`.  Timestamps (`Date.now()` values,
milliseconds) are modelled as `Int`.  JavaScript `String.prototype.includes`
is modelled by an explicit substring search (`strIncludes`), and
`toLowerCase` by `Char.toLower` (they agree on the ASCII range, which is
all the code relies on).
-/

/-- Character-list version of substring matching at the head: the
needle is a pointwise match of an initial segment of the haystack. -/
def firstMatches (needle hay : List Char) : Bool :=
  match needle, hay with
  | [], _ => true
  | _ :: _, [] => false
  | n :: ns, h :: hs => n == h && firstMatches ns hs

/-- JavaScript `hay.includes(needle)` over character lists: the needle
occurs as a contiguous subsequence at some offset of the haystack. -/
def containsSeq (needle : List Char) : List Char → Bool
  | [] => firstMatches needle []
  | h :: hs => firstMatches needle (h :: hs) || containsSeq needle hs

/-- JavaScript `hay.includes(needle)` on strings. -/
def strIncludes (hay needle : String) : Bool :=
  containsSeq needle.toList hay.toList

/-- JavaScript `s.toLowerCase()` restricted to the ASCII range used by
the code, producing the character list of the lowered string. -/
def lowerChars (s : String) : List Char :=
  s.toList.map Char.toLower

/-- Whitespace characters removed by JavaScript `String.prototype.trim`
(the ASCII ones plus no-break space; the code only ever meets ASCII). -/
def isJsSpace (c : Char) : Bool :=
  c == ' ' || c == '\t' || c == '\n' || c == '\r'
    || c == Char.ofNat 11 || c == Char.ofNat 12 || c == Char.ofNat 160

/-- JavaScript `s.trim()` over character lists. -/
def trimChars (s : List Char) : List Char :=
  ((s.dropWhile isJsSpace).reverse.dropWhile isJsSpace).reverse

/-!
## Consent manager (src/assets/js/consent.js)

`currentConsent` is an object with the three fixed keys `necessary`,
`analytics`, `marketing`; we model it as `ConsentRecord`.  The value
read back from `localStorage` under the key `acta_consent` is either
absent, unparsable JSON (the `catch` branch of `loadConsent`), or a
parsed object whose three keys may each be present or absent; we model
that as `StoredValue` over `PartialConsent`.  Object spread
`{ ...currentConsent, ...parsed }` is `mergeConsent`.
-/

/-- The in-memory consent object of consent.js (`currentConsent`). -/
structure ConsentRecord where
  necessary : Bool
  analytics : Bool
  marketing : Bool
deriving DecidableEq

/-- A parsed JSON consent object: each of the three keys may be absent. -/
structure PartialConsent where
  necessary : Option Bool
  analytics : Option Bool
  marketing : Option Bool
deriving DecidableEq

/-- JavaScript object spread `{ ...cur, ...p }` over the three keys. -/
def mergeConsent (cur : ConsentRecord) (p : PartialConsent) : ConsentRecord :=
  { necessary := p.necessary.getD cur.necessary
    analytics := p.analytics.getD cur.analytics
    marketing := p.marketing.getD cur.marketing }

/-- Total record viewed as a parsed object with all three keys present
(the result of `JSON.parse` applied to `JSON.stringify(currentConsent)`). -/
def toPartial (r : ConsentRecord) : PartialConsent :=
  { necessary := some r.necessary
    analytics := some r.analytics
    marketing := some r.marketing }

/-- The value found in storage under `acta_consent`: missing, a string
`JSON.parse` throws on, or a parsed object. -/
inductive StoredValue where
  | missing : StoredValue
  | corrupt : StoredValue
  | parsed : PartialConsent → StoredValue
deriving DecidableEq

/-- Compiled-in default consent (initial value of `currentConsent`). -/
def defaultConsent : ConsentRecord :=
  { necessary := true, analytics := false, marketing := false }

/-- `loadConsent` of consent.js: on a missing value or a parse failure
the current record is kept; otherwise the parsed object is spread over
the current record. -/
def loadConsent (cur : ConsentRecord) (stored : StoredValue) : ConsentRecord :=
  match stored with
  | .missing => cur
  | .corrupt => cur
  | .parsed p => mergeConsent cur p

/-- A script element of the page: its `type` attribute, its optional
`data-cookie-category` attribute, its text content, and its remaining
attributes. -/
structure Script where
  typeAttr : String
  category : Option String
  body : String
  otherAttrs : List (String × String)
deriving DecidableEq

/-- Matches the selector `script[type="text/plain"][data-cookie-category]`. -/
def isGated (sc : Script) : Bool :=
  sc.typeAttr == "text/plain" && sc.category.isSome

/-- A gated placeholder of the `marketing` category, still in inert form. -/
def inertMarketing (sc : Script) : Bool :=
  sc.typeAttr == "text/plain" && sc.category == some "marketing"

/-- `isAllowed` of consent.js: `necessary` is always allowed, the other
two keys are looked up in `currentConsent`; a category string that is
not a key of the record compares unequal to `true`. -/
def isAllowed (c : ConsentRecord) (category : String) : Bool :=
  if category = "necessary" then true
  else if category = "analytics" then c.analytics
  else if category = "marketing" then c.marketing
  else false

/-- Activation of a gated script: a fresh `script` element with
`type="text/javascript"`, the same text content, and every attribute
except `type` and `data-cookie-category` copied over. -/
def activateScript (sc : Script) : Script :=
  { typeAttr := "text/javascript"
    category := none
    body := sc.body
    otherAttrs := sc.otherAttrs }

/-- Per-node action of `processGatedScripts`: a node matching the gated
selector whose category is allowed is replaced in place by its
activation; all other nodes are untouched. -/
def processScript (c : ConsentRecord) (sc : Script) : Script :=
  if isGated sc then
    if isAllowed c (sc.category.getD "") then activateScript sc else sc
  else sc

/-- `processGatedScripts` of consent.js over the page script list
(`replaceChild` keeps the position, so the scan is a positional map). -/
def processGatedScripts (c : ConsentRecord) (page : List Script) : List Script :=
  page.map (processScript c)

/-- Number of inert placeholders of the `marketing` category on a page. -/
def countInertMarketing (page : List Script) : Nat :=
  page.countP inertMarketing

/-- Consent-manager state: the in-memory record, the persisted value,
and the script nodes of the page. -/
structure ConsentState where
  consent : ConsentRecord
  stored : StoredValue
  page : List Script
deriving DecidableEq

/-- `saveConsent` of consent.js: spread the given object over the
current record, then persist the full merged record (storage assumed
available; on a storage error the code merely logs and keeps the
in-memory record). -/
def saveConsent (s : ConsentState) (p : PartialConsent) : ConsentState :=
  let c := mergeConsent s.consent p
  { s with consent := c, stored := .parsed (toPartial c) }

/-- `acceptAll` of consent.js: save all-true consent, then re-scan the
gated placeholders. -/
def acceptAll (s : ConsentState) : ConsentState :=
  let s1 := saveConsent s
    { necessary := some true, analytics := some true, marketing := some true }
  { s1 with page := processGatedScripts s1.consent s1.page }

/-- `rejectNonEssential` of consent.js: save necessary-only consent,
then re-scan the gated placeholders. -/
def rejectNonEssential (s : ConsentState) : ConsentState :=
  let s1 := saveConsent s
    { necessary := some true, analytics := some false, marketing := some false }
  { s1 with page := processGatedScripts s1.consent s1.page }

/-- `savePreferences` of consent.js with the two checkbox states passed
in: save the custom choice, then re-scan the gated placeholders. -/
def savePreferences (s : ConsentState) (a m : Bool) : ConsentState :=
  let s1 := saveConsent s
    { necessary := some true, analytics := some a, marketing := some m }
  { s1 with page := processGatedScripts s1.consent s1.page }

/-- The consent-manager operations reachable from the page or from the
public `window.ACTAConsent` object.  `update` is the public entry point
(`saveConsent` directly, which does not re-scan). -/
inductive ConsentOp where
  | load : ConsentOp
  | acceptAll : ConsentOp
  | rejectNonEssential : ConsentOp
  | savePreferences : Bool → Bool → ConsentOp
  | rescan : ConsentOp
  | update : PartialConsent → ConsentOp
deriving DecidableEq

/-- One consent-manager operation applied to the state. -/
def applyOp (s : ConsentState) : ConsentOp → ConsentState
  | .load => { s with consent := loadConsent s.consent s.stored }
  | .acceptAll => acceptAll s
  | .rejectNonEssential => rejectNonEssential s
  | .savePreferences a m => savePreferences s a m
  | .rescan => { s with page := processGatedScripts s.consent s.page }
  | .update p => saveConsent s p

/-- A sequence of consent-manager operations. -/
def runOps (s : ConsentState) (ops : List ConsentOp) : ConsentState :=
  ops.foldl applyOp s

/-- State at module load: `currentConsent` starts at the compiled-in
default, storage and page arbitrary. -/
def initState (stored : StoredValue) (page : List Script) : ConsentState :=
  { consent := defaultConsent, stored := stored, page := page }

/-- The persisted value records `marketing: false`. -/
def storedMarketingFalse : StoredValue → Bool
  | .parsed p => p.marketing == some false
  | _ => false

/-!
## Contact form anti-spam logic (src/assets/js/contact.js)

`FORM_CONFIG` constants, the anti-spam gates of `passAntiSpamChecks`
(honeypot, rate limiting, suspicious content, dwell time) and the
informational spam score `calculateSpamScore`.  The mutable state a
submission attempt touches is the in-memory `submissionHistory` array,
its persisted copy under `acta_submission_history`, and the
`data-start-time` attribute of the form; we collect these in
`SpamState`.
-/

/-- `FORM_CONFIG.maxSubmissionsPerHour`. -/
def maxSubmissionsPerHour : Nat := 3

/-- `FORM_CONFIG.minMessageLength`. -/
def minMessageLength : Nat := 20

/-- `FORM_CONFIG.suspiciousKeywords`. -/
def suspiciousKeywords : List String :=
  ["viagra", "cialis", "casino", "poker", "lottery", "winner", "congratulations",
   "urgent", "act now", "limited time", "free money", "click here", "buy now",
   "nigerian prince", "inheritance", "lottery winner", "bitcoin", "cryptocurrency"]

/-- Field values of the form at submit time. -/
structure FormSnapshot where
  fullName : String
  organisation : String
  email : String
  phone : String
  message : String
  honeypot : String
  consentChecked : Bool
deriving DecidableEq

/-- Mutable state touched by the anti-spam gates: the in-memory
`submissionHistory` array, the value persisted under
`acta_submission_history`, and the form start-time attribute. -/
structure SpamState where
  history : List Int
  persisted : List Int
  startTime : Option Int
deriving DecidableEq

/-- One hour in milliseconds. -/
def oneHourMs : Int := 60 * 60 * 1000

/-- The pruning step of `checkRateLimit`: keep only timestamps strictly
newer than one hour ago. -/
def pruneHistory (now : Int) (h : List Int) : List Int :=
  h.filter (fun t => t > now - oneHourMs)

/-- `checkRateLimit` of contact.js: prune the in-memory history to the
past hour; if the pruned history is at or above the limit, reject
(without writing to storage); otherwise append the current timestamp
and persist the new array. -/
def checkRateLimit (now : Int) (s : SpamState) : Bool × SpamState :=
  let pruned := pruneHistory now s.history
  if maxSubmissionsPerHour ≤ pruned.length then
    (false, { s with history := pruned })
  else
    (true, { s with history := pruned ++ [now], persisted := pruned ++ [now] })

/-- The concatenation of the lowered message, full name and email with
single-space separators, as built in both `containsSuspiciousContent`
and `calculateSpamScore`. -/
def allTextOf (snap : FormSnapshot) : List Char :=
  lowerChars snap.message ++ (' ' :: lowerChars snap.fullName) ++ (' ' :: lowerChars snap.email)

/-- `containsSuspiciousContent` of contact.js: some lowered keyword of
the denylist occurs in the combined lowered text. -/
def containsSuspiciousContent (snap : FormSnapshot) : Bool :=
  suspiciousKeywords.any (fun k => containsSeq (lowerChars k) (allTextOf snap))

/-- Minimum dwell time enforced by `checkFormTiming` (2000 ms). -/
def minFormTimeMs : Int := 2000

/-- `checkFormTiming` of contact.js: with no recorded start time the
attempt is rejected and the start time is set to now; otherwise the
attempt passes exactly when strictly more than the minimum dwell time
has elapsed. -/
def checkFormTiming (now : Int) (s : SpamState) : Bool × SpamState :=
  match s.startTime with
  | none => (false, { s with startTime := some now })
  | some t0 => (decide (now - t0 > minFormTimeMs), s)

/-- `passAntiSpamChecks` of contact.js: the four gates in their fixed
order, short-circuiting on the first failure, with the state each gate
left behind. -/
def passAntiSpamChecks (snap : FormSnapshot) (now : Int) (s : SpamState) :
    Bool × SpamState :=
  if trimChars snap.honeypot.toList ≠ [] then (false, s)
  else
    let r1 := checkRateLimit now s
    if !r1.1 then (false, r1.2)
    else if containsSuspiciousContent snap then (false, r1.2)
    else
      let r2 := checkFormTiming now r1.2
      if !r2.1 then (false, r2.2)
      else (true, r2.2)

/-- The special-character class of the spam-score scan
(the regex character set between the brackets). -/
def spamSpecialChars : List Char :=
  ['!', '@', '#', '$', '%', '^', '&', '*', '(', ')', '_', '+', '=', '[', ']',
   Char.ofNat 123, Char.ofNat 125, '|', ';', Char.ofNat 39, ':', Char.ofNat 34,
   ',', '.', '/', '<', '>', '?']

/-- Membership in the special-character class. -/
def isSpamSpecial (c : Char) : Bool :=
  spamSpecialChars.contains c

/-- A character matched by the regex dot (everything except the four
JavaScript line terminators). -/
def jsDotChar (c : Char) : Bool :=
  c ≠ '\n' && c ≠ '\r' && c.val ≠ 8232 && c.val ≠ 8233

/-- The regex test for a run of five or more equal characters
(a dot-matched character followed by four or more backreferences). -/
def hasRepeatRun : List Char → Bool
  | c1 :: c2 :: c3 :: c4 :: c5 :: rest =>
      (jsDotChar c1 && c1 == c2 && c1 == c3 && c1 == c4 && c1 == c5)
        || hasRepeatRun (c2 :: c3 :: c4 :: c5 :: rest)
  | _ => false

/-- `calculateSpamScore` of contact.js.  The three character-class
density tests compare a floating-point quotient against a constant; for
a non-empty message `count / len > a / b` is the exact comparison
`count * b > len * a`, and for the empty message the JavaScript
quotient is NaN, so every comparison is false — both modelled by
requiring `0 < len`.  Note the uppercase scan runs on the already
lowercased message, exactly as in the source.  The missing-start-time
fallback `parseInt(start || Date.now())` makes the elapsed time zero. -/
def calculateSpamScore (snap : FormSnapshot) (now : Int) (startTime : Option Int) : Nat :=
  let message := lowerChars snap.message
  let allText := allTextOf snap
  let kwScore := 20 * suspiciousKeywords.countP (fun k => containsSeq (lowerChars k) allText)
  let len := message.length
  let caps := message.countP (fun c => 'A' ≤ c && c ≤ 'Z')
  let capsScore := if 0 < len ∧ caps * 10 > len * 3 then 15 else 0
  let digits := message.countP (fun c => '0' ≤ c && c ≤ '9')
  let digitScore := if 0 < len ∧ digits * 5 > len * 1 then 10 else 0
  let specials := message.countP isSpamSpecial
  let specialScore := if 0 < len ∧ specials * 10 > len * 1 then 10 else 0
  let shortScore := if len < 30 then 10 else 0
  let longScore := if 1000 < len then 15 else 0
  let repeatScore := if hasRepeatRun message then 20 else 0
  let timeSpent := now - startTime.getD now
  let fastScore := if timeSpent < 3000 then 25 else 0
  let slowScore := if timeSpent > 300000 then 10 else 0
  Nat.min (kwScore + capsScore + digitScore + specialScore + shortScore + longScore
    + repeatScore + fastScore + slowScore) 100

/-!
## Submission failure classification (handleSubmit of contact.js)

A failed insert throws inside the inner `try`; the inner `catch`
either swallows the error as a development soft success or rethrows to
the outer `catch`, which classifies the message text.
-/

/-- The outcome the user sees after a failed outbound write. -/
inductive SubmitOutcome where
  | softSuccess : SubmitOutcome
  | shownError : String → SubmitOutcome
  | genericError : SubmitOutcome
deriving DecidableEq

/-- The outer `catch` of `handleSubmit`: classification of the error
message text into the development soft success, the four specific
user-facing messages, or the generic fallback. -/
def outerCatch (msg : String) : SubmitOutcome :=
  if strIncludes msg "Database error" then .softSuccess
  else if strIncludes msg "Request timeout" then
    .shownError "Request timed out. Please check your connection and try again."
  else if strIncludes msg "Failed to fetch" || strIncludes msg "NetworkError" then
    .shownError "Network error. Please check your connection and try again."
  else if strIncludes msg "CORS" then
    .shownError "Connection error. Please try again or contact us directly."
  else if strIncludes msg "TypeError" || strIncludes msg "ReferenceError" then
    .shownError "Browser compatibility issue. Please try refreshing the page or using a different browser."
  else .genericError

/-- The inner `catch` around the Supabase insert: messages containing
any of the four development substrings are shown as success and the
form is reset; anything else is rethrown to the outer `catch`. -/
def innerCatch (msg : String) : SubmitOutcome :=
  if strIncludes msg "Database error" || strIncludes msg "Failed to fetch"
      || strIncludes msg "NetworkError" || strIncludes msg "TypeError" then
    .softSuccess
  else outerCatch msg

/-!
## Auxiliary definitions used by the theorems
-/

/-- The inner catch swallows the error as a development soft success. -/
def devSwallowed (msg : String) : Bool :=
  strIncludes msg "Database error" || strIncludes msg "Failed to fetch"
    || strIncludes msg "NetworkError" || strIncludes msg "TypeError"

/-- The lowered message contains the token `viagra`. -/
def messageHasViagra (snap : FormSnapshot) : Bool :=
  containsSeq (lowerChars "viagra") (lowerChars snap.message)

/-- A pair of a page node before and after a scan in which the node was
an inert marketing placeholder and was converted to its activation. -/
def convertedPair (ab : Script × Script) : Bool :=
  inertMarketing ab.1 && (ab.2 == activateScript ab.1)

/-- Invariant tying the persisted consent value to the in-memory
record: whenever storage says `marketing: false`, the in-memory record
agrees. -/
def stateInv (s : ConsentState) : Prop :=
  storedMarketingFalse s.stored = true → s.consent.marketing = false

/-- The operation does not push `necessary: false` through the public
update entry point. -/
def goodOp : ConsentOp → Bool
  | .update p => !(p.necessary == some false)
  | _ => true

/-- The persisted value does not record `necessary: false`. -/
def storedNecOk : StoredValue → Bool
  | .parsed p => !(p.necessary == some false)
  | _ => true

/-- Invariant for the necessary category: the in-memory record has it
true and storage never records it false. -/
def necInv (s : ConsentState) : Prop :=
  s.consent.necessary = true ∧ storedNecOk s.stored = true

/-- A gated marketing placeholder used as concrete input. -/
def mktScript : Script :=
  { typeAttr := "text/plain", category := some "marketing"
    body := "console.log(1)", otherAttrs := [] }

/-- A form snapshot whose message contains a denylist token, used as
concrete input. -/
def snapSpamMsg : FormSnapshot :=
  { fullName := "Bob", organisation := "", email := "b@c.d", phone := ""
    message := "viagra please respond", honeypot := "", consentChecked := true }

/-- A clean form snapshot (empty honeypot, plausible field values),
used as concrete input. -/
def snapClean : FormSnapshot :=
  { fullName := "Bob", organisation := "", email := "b@c.d", phone := ""
    message := "Hello, I would like a quote for type approval."
    honeypot := "", consentChecked := true }

/-- A snapshot whose message stacks several denylist tokens on top of
the `viagra` token, used as concrete input. -/
def snapManyKeywords : FormSnapshot :=
  { fullName := "a", organisation := "", email := "b@c.d", phone := ""
    message := "viagra cialis casino poker lottery winner", honeypot := ""
    consentChecked := true }

/-- The same snapshot with the `viagra` token removed, used as concrete
input. -/
def snapManyKeywordsNoViagra : FormSnapshot :=
  { fullName := "a", organisation := "", email := "b@c.d", phone := ""
    message := "cialis casino poker lottery winner", honeypot := ""
    consentChecked := true }


/-!
## Theorems
-/

/-- Helper: the rate-limit gate never touches the form start time. -/
theorem checkRateLimit_startTime (now : Int) (s : SpamState) :
    (checkRateLimit now s).2.startTime = s.startTime := by
  unfold checkRateLimit
  dsimp only
  split <;> rfl

/-- C8: loading from a missing or unparsable persisted value leaves the
in-memory record at the compiled-in default
(necessary true, analytics false, marketing false). -/
theorem loadConsent_missing_or_corrupt (stored : StoredValue)
    (h : stored = .missing ∨ stored = .corrupt) :
    loadConsent defaultConsent stored = defaultConsent := by
  rcases h with rfl | rfl <;> rfl

/-- Witness for C8 at the missing value. -/
theorem loadConsent_missing_or_corrupt_witness :
    loadConsent defaultConsent .missing = defaultConsent :=
  loadConsent_missing_or_corrupt .missing (Or.inl rfl)

/-- C9: persistence round-trip is the identity on full consent records:
saving a record stores the merged record itself, and loading it back
(from any in-memory record) returns a record equal to the one saved. -/
theorem consent_roundtrip (r : ConsentRecord) (s : ConsentState) (cur : ConsentRecord) :
    (saveConsent s (toPartial r)).consent = r ∧
    loadConsent cur (saveConsent s (toPartial r)).stored = r := by
  exact ⟨rfl, rfl⟩

/-- C10: the composite spam score is a total function of the snapshot,
the current time and the recorded start time, and always lies between
0 and 100 — including for the empty message, where the three
character-density quotients of the source divide by zero (NaN compares
false, modelled by the `0 < len` guard). -/
theorem spamScore_bounded (snap : FormSnapshot) (now : Int) (startTime : Option Int) :
    0 ≤ calculateSpamScore snap now startTime ∧ calculateSpamScore snap now startTime ≤ 100 :=
  ⟨Nat.zero_le _, Nat.min_le_right _ _⟩

/-- C3 counterexample: a network failure of the outbound write, message
`Failed to fetch`, is swallowed by the inner catch as a soft success
rather than mapped to the distinct network-error message the claim
requires. -/
theorem insert_failure_network_is_soft_success :
    innerCatch "Failed to fetch" = SubmitOutcome.softSuccess ∧
    SubmitOutcome.softSuccess
      ≠ SubmitOutcome.shownError "Network error. Please check your connection and try again." := by
  constructor
  · rfl
  · decide

/-- C3 amended: failures of the outbound write whose message contains
`Database error`, `Failed to fetch`, `NetworkError` or `TypeError` are
all treated as soft success by the inner catch; among the remaining
messages, `Request timeout`, `CORS` and `ReferenceError` are mapped to
three pairwise distinct user-facing messages (timeout, cross-origin,
browser compatibility), and everything else to the generic error. -/
theorem insert_failure_classification (msg : String) :
    (devSwallowed msg = true → innerCatch msg = .softSuccess) ∧
    (devSwallowed msg = false → strIncludes msg "Request timeout" = true →
      innerCatch msg
        = .shownError "Request timed out. Please check your connection and try again.") ∧
    (devSwallowed msg = false → strIncludes msg "Request timeout" = false →
      strIncludes msg "CORS" = true →
      innerCatch msg
        = .shownError "Connection error. Please try again or contact us directly.") ∧
    (devSwallowed msg = false → strIncludes msg "Request timeout" = false →
      strIncludes msg "CORS" = false → strIncludes msg "ReferenceError" = true →
      innerCatch msg
        = .shownError "Browser compatibility issue. Please try refreshing the page or using a different browser.") ∧
    (devSwallowed msg = false → strIncludes msg "Request timeout" = false →
      strIncludes msg "CORS" = false → strIncludes msg "ReferenceError" = false →
      innerCatch msg = .genericError) := by
  unfold devSwallowed innerCatch outerCatch
  refine ⟨?_, ?_, ?_, ?_, ?_⟩ <;> intro h <;>
    simp_all [Bool.or_eq_false_iff, Bool.or_eq_true_iff]

/-- Witness for C3 amended at a cross-origin failure message. -/
theorem insert_failure_classification_witness :
    innerCatch "CORS policy blocked the request"
      = .shownError "Connection error. Please try again or contact us directly." :=
  (insert_failure_classification "CORS policy blocked the request").2.2.1
    (by decide) (by decide) (by decide)

/-- Helper: the timing gate never touches the persisted history. -/
theorem checkFormTiming_persisted (now : Int) (s : SpamState) :
    (checkFormTiming now s).2.persisted = s.persisted := by
  unfold checkFormTiming
  cases s.startTime <;> rfl

/-- C7: an attempt made strictly less than the minimum dwell time after
the recorded form start time is rejected by the timing gate, and the
whole anti-spam check rejects the submission, whatever the honeypot and
the other field values are. -/
theorem timing_gate_rejects (snap : FormSnapshot) (now t0 : Int) (s : SpamState)
    (hst : s.startTime = some t0) (hfast : now - t0 < minFormTimeMs) :
    (checkFormTiming now s).1 = false ∧ (passAntiSpamChecks snap now s).1 = false := by
  have htime : ∀ s' : SpamState, s'.startTime = some t0 → (checkFormTiming now s').1 = false := by
    intro s' h
    unfold checkFormTiming
    rw [h]
    simp only [decide_eq_false_iff_not]
    omega
  refine ⟨htime s hst, ?_⟩
  by_cases hhp : trimChars snap.honeypot.data = []
  · by_cases hrl : (checkRateLimit now s).1 = true
    · by_cases hsus : containsSuspiciousContent snap = true
      · simp [passAntiSpamChecks, hhp, hrl, hsus]
      · have h2 : (checkFormTiming now (checkRateLimit now s).2).1 = false :=
          htime _ (by rw [checkRateLimit_startTime]; exact hst)
        simp [passAntiSpamChecks, hhp, hrl, hsus, h2]
    · simp [passAntiSpamChecks, hhp, Bool.not_eq_true _ ▸ hrl]
  · simp [passAntiSpamChecks, hhp]

/-- Witness for C7: a clean submission 1 second after render is
rejected. -/
theorem timing_gate_rejects_witness :
    (checkFormTiming 1000 { history := [], persisted := [], startTime := some 0 }).1 = false ∧
    (passAntiSpamChecks snapClean 1000
      { history := [], persisted := [], startTime := some 0 }).1 = false :=
  timing_gate_rejects snapClean 1000 0 _ rfl (by decide)

/-- C2 counterexample: an attempt with an empty honeypot, an empty
history and a spam keyword in the message is rejected (by the
suspicious-content gate), yet the persisted submission history changes
from the empty list to a one-element list holding the attempt's
timestamp — a state change that is not pruning. -/
theorem rejected_attempt_changes_state :
    (passAntiSpamChecks snapSpamMsg 7200000
      { history := [], persisted := [], startTime := some 0 }).1 = false ∧
    (passAntiSpamChecks snapSpamMsg 7200000
      { history := [], persisted := [], startTime := some 0 }).2.persisted = [7200000] ∧
    ([] : List Int) ≠ [7200000] := by
  refine ⟨by decide, by decide, by decide⟩

/-- C2 amended: a rejected submission attempt is not state-neutral in
general.  A honeypot rejection leaves the whole state unchanged; a
rate-limit rejection leaves the persisted history unchanged and only
prunes the in-memory history; but a rejection by the suspicious-content
or dwell-time gates happens after the rate-limit step has already
recorded the attempt, so the persisted history then equals the pruned
prior history extended with the attempt timestamp. -/
theorem rejected_attempt_state (snap : FormSnapshot) (now : Int) (s : SpamState)
    (hrej : (passAntiSpamChecks snap now s).1 = false) :
    (trimChars snap.honeypot.data ≠ [] → (passAntiSpamChecks snap now s).2 = s) ∧
    (trimChars snap.honeypot.data = [] → (checkRateLimit now s).1 = false →
      (passAntiSpamChecks snap now s).2.persisted = s.persisted ∧
      (passAntiSpamChecks snap now s).2.history = pruneHistory now s.history) ∧
    (trimChars snap.honeypot.data = [] → (checkRateLimit now s).1 = true →
      (passAntiSpamChecks snap now s).2.persisted = pruneHistory now s.history ++ [now]) := by
  refine ⟨?_, ?_, ?_⟩
  · intro hhp
    simp [passAntiSpamChecks, hhp]
  · intro hhp hrl
    have h2 : checkRateLimit now s = (false, { s with history := pruneHistory now s.history }) := by
      unfold checkRateLimit at hrl ⊢
      dsimp only at hrl ⊢
      by_cases hc : maxSubmissionsPerHour ≤ (pruneHistory now s.history).length
      · simp [hc]
      · simp [hc] at hrl
    simp [passAntiSpamChecks, hhp, h2]
  · intro hhp hrl
    have h2 : checkRateLimit now s
        = (true, { s with history := pruneHistory now s.history ++ [now],
                          persisted := pruneHistory now s.history ++ [now] }) := by
      unfold checkRateLimit at hrl ⊢
      dsimp only at hrl ⊢
      by_cases hc : maxSubmissionsPerHour ≤ (pruneHistory now s.history).length
      · simp [hc] at hrl
      · simp [hc]
    by_cases hsus : containsSuspiciousContent snap = true
    · simp [passAntiSpamChecks, hhp, h2, hsus]
    · simp only [passAntiSpamChecks, String.toList, hhp, h2, hsus, ne_eq,
        not_true_eq_false, if_false, Bool.not_true, Bool.false_eq_true, if_true]
      split <;> simp [checkFormTiming_persisted]

/-- Witness for C2 amended: the concrete rejected attempt of the
counterexample indeed leaves persisted history equal to the pruned
prior history plus the attempt timestamp. -/
theorem rejected_attempt_state_witness :
    (passAntiSpamChecks snapSpamMsg 7200000
      { history := [], persisted := [], startTime := some 0 }).2.persisted
      = pruneHistory 7200000 [] ++ [7200000] :=
  (rejected_attempt_state snapSpamMsg 7200000
      { history := [], persisted := [], startTime := some 0 } (by decide)).2.2
    (by decide) (by decide)

/-- C5: with the compiled-in limit of 3 submissions per hour, four
attempts inside one rolling hour from a session whose prior history is
at least an hour old are accepted, accepted, accepted, rejected; and
after every attempt both the in-memory and the persisted history hold
only timestamps less than one hour old. -/
theorem rate_limit_four_attempts (h0 p0 : List Int) (st : Option Int) (t1 t2 t3 t4 : Int)
    (hold : ∀ e ∈ h0, e + oneHourMs ≤ t1)
    (h12 : t1 ≤ t2) (h23 : t2 ≤ t3) (h34 : t3 ≤ t4) (hwin : t4 < t1 + oneHourMs) :
    (checkRateLimit t1 ⟨h0, p0, st⟩).1 = true ∧
    (checkRateLimit t2 (checkRateLimit t1 ⟨h0, p0, st⟩).2).1 = true ∧
    (checkRateLimit t3 (checkRateLimit t2 (checkRateLimit t1 ⟨h0, p0, st⟩).2).2).1 = true ∧
    (checkRateLimit t4 (checkRateLimit t3 (checkRateLimit t2
      (checkRateLimit t1 ⟨h0, p0, st⟩).2).2).2).1 = false ∧
    (∀ e ∈ (checkRateLimit t1 ⟨h0, p0, st⟩).2.history, t1 < e + oneHourMs) ∧
    (∀ e ∈ (checkRateLimit t2 (checkRateLimit t1 ⟨h0, p0, st⟩).2).2.history,
      t2 < e + oneHourMs) ∧
    (∀ e ∈ (checkRateLimit t3 (checkRateLimit t2
      (checkRateLimit t1 ⟨h0, p0, st⟩).2).2).2.history, t3 < e + oneHourMs) ∧
    (∀ e ∈ (checkRateLimit t4 (checkRateLimit t3 (checkRateLimit t2
      (checkRateLimit t1 ⟨h0, p0, st⟩).2).2).2).2.history, t4 < e + oneHourMs) ∧
    (∀ e ∈ (checkRateLimit t4 (checkRateLimit t3 (checkRateLimit t2
      (checkRateLimit t1 ⟨h0, p0, st⟩).2).2).2).2.persisted, t4 < e + oneHourMs) := by
  have f1 : pruneHistory t1 h0 = [] := by
    unfold pruneHistory
    rw [List.filter_eq_nil_iff]
    intro a ha
    have := hold a ha
    simp only [decide_eq_true_eq, not_lt]
    omega
  have e1 : checkRateLimit t1 ⟨h0, p0, st⟩ = (true, ⟨[t1], [t1], st⟩) := by
    unfold checkRateLimit
    dsimp only
    rw [f1]
    simp [maxSubmissionsPerHour]
  have f2 : pruneHistory t2 [t1] = [t1] := by
    unfold pruneHistory
    rw [List.filter_eq_self]
    intro a ha
    simp only [List.mem_singleton] at ha
    subst ha
    simp only [decide_eq_true_eq]
    omega
  have e2 : checkRateLimit t2 (⟨[t1], [t1], st⟩ : SpamState) = (true, ⟨[t1, t2], [t1, t2], st⟩) := by
    unfold checkRateLimit
    dsimp only
    rw [f2]
    simp [maxSubmissionsPerHour]
  have f3 : pruneHistory t3 [t1, t2] = [t1, t2] := by
    unfold pruneHistory
    rw [List.filter_eq_self]
    intro a ha
    simp only [List.mem_cons, List.mem_singleton] at ha
    rcases ha with rfl | rfl | h
    · simp only [decide_eq_true_eq]; omega
    · simp only [decide_eq_true_eq]; omega
    · cases h
  have e3 : checkRateLimit t3 (⟨[t1, t2], [t1, t2], st⟩ : SpamState)
      = (true, ⟨[t1, t2, t3], [t1, t2, t3], st⟩) := by
    unfold checkRateLimit
    dsimp only
    rw [f3]
    simp [maxSubmissionsPerHour]
  have f4 : pruneHistory t4 [t1, t2, t3] = [t1, t2, t3] := by
    unfold pruneHistory
    rw [List.filter_eq_self]
    intro a ha
    simp only [List.mem_cons, List.mem_singleton] at ha
    rcases ha with rfl | rfl | rfl | h
    · simp only [decide_eq_true_eq]; omega
    · simp only [decide_eq_true_eq]; omega
    · simp only [decide_eq_true_eq]; omega
    · cases h
  have e4 : checkRateLimit t4 (⟨[t1, t2, t3], [t1, t2, t3], st⟩ : SpamState)
      = (false, ⟨[t1, t2, t3], [t1, t2, t3], st⟩) := by
    unfold checkRateLimit
    dsimp only
    rw [f4]
    simp [maxSubmissionsPerHour]
  simp only [e1, e2, e3, e4, true_and]
  refine ⟨?_, ?_, ?_, ?_, ?_⟩
  · intro e he
    simp only [List.mem_singleton] at he
    subst he
    omega
  · intro e he
    simp only [List.mem_cons, List.not_mem_nil, or_false] at he
    rcases he with rfl | rfl <;> omega
  · intro e he
    simp only [List.mem_cons, List.not_mem_nil, or_false] at he
    rcases he with rfl | rfl | rfl <;> omega
  · intro e he
    simp only [List.mem_cons, List.not_mem_nil, or_false] at he
    rcases he with rfl | rfl | rfl <;> omega
  · intro e he
    simp only [List.mem_cons, List.not_mem_nil, or_false] at he
    rcases he with rfl | rfl | rfl <;> omega

/-- Witness for C5 at four attempts in the first four milliseconds of an
empty session. -/
theorem rate_limit_four_attempts_witness :
    (checkRateLimit 0 ⟨[], [], none⟩).1 = true ∧
    (checkRateLimit 3 (checkRateLimit 2 (checkRateLimit 1
      (checkRateLimit 0 ⟨[], [], none⟩).2).2).2).1 = false :=
  ⟨(rate_limit_four_attempts [] [] none 0 1 2 3 (by simp) (by decide)
      (by decide) (by decide) (by decide)).1,
   (rate_limit_four_attempts [] [] none 0 1 2 3 (by simp) (by decide)
      (by decide) (by decide) (by decide)).2.2.2.1⟩

/-- Helper: a head match survives extending the haystack on the right. -/
theorem firstMatches_append (n m r : List Char) (h : firstMatches n m = true) :
    firstMatches n (m ++ r) = true := by
  induction n generalizing m with
  | nil => rfl
  | cons a as ih =>
    cases m with
    | nil => exact absurd h (by simp [firstMatches])
    | cons b bs =>
      simp only [firstMatches, List.cons_append, Bool.and_eq_true] at h ⊢
      exact ⟨h.1, ih bs h.2⟩

/-- Helper: the empty needle occurs in every haystack. -/
theorem containsSeq_nil_needle (r : List Char) : containsSeq [] r = true := by
  cases r <;> rfl

/-- Helper: an occurrence survives extending the haystack on the right. -/
theorem containsSeq_append (n m r : List Char) (h : containsSeq n m = true) :
    containsSeq n (m ++ r) = true := by
  induction m with
  | nil =>
    cases n with
    | nil => simpa using containsSeq_nil_needle r
    | cons a as => exact absurd h (by simp [containsSeq, firstMatches])
  | cons b bs ih =>
    simp only [containsSeq, List.cons_append, Bool.or_eq_true] at h ⊢
    rcases h with h | h
    · exact Or.inl (firstMatches_append _ _ _ h)
    · exact Or.inr (ih h)

/-- Helper: a viagra hit in the message is a viagra hit in the combined
text scanned by the keyword gates. -/
theorem viagra_in_allText (snap : FormSnapshot) (h : messageHasViagra snap = true) :
    containsSeq (lowerChars "viagra") (allTextOf snap) = true := by
  unfold messageHasViagra at h
  unfold allTextOf
  exact containsSeq_append _ _ _ (containsSeq_append _ _ _ h)

/-- C6 counterexample: on a message already carrying five other
denylist tokens the additive score passes the 100 cap with or without
the `viagra` token, so adding the token does not raise the computed
score by 20 — the capped scores are both exactly 100. -/
theorem viagra_gain_dies_at_cap :
    messageHasViagra snapManyKeywords = true ∧
    messageHasViagra snapManyKeywordsNoViagra = false ∧
    calculateSpamScore snapManyKeywords 10000 (some 0) = 100 ∧
    calculateSpamScore snapManyKeywordsNoViagra 10000 (some 0) = 100 ∧
    ¬(calculateSpamScore snapManyKeywordsNoViagra 10000 (some 0) + 20
        ≤ calculateSpamScore snapManyKeywords 10000 (some 0)) := by
  refine ⟨by decide, by decide, by decide, by decide, by decide⟩

/-- C6 amended: a message containing the token `viagra`
(case-insensitively) always trips the suspicious-content scan, the
keyword term contributes its 20 points so the computed spam score is at
least 20, and the anti-spam check rejects the submission whatever the
other field values and the rest of the state are; the full
at-least-20-points difference against the token-free message only holds
below the 100-point cap. -/
theorem viagra_always_flagged (snap : FormSnapshot) (now : Int) (t0 : Option Int)
    (st : SpamState) (h : messageHasViagra snap = true) :
    containsSuspiciousContent snap = true ∧
    20 ≤ calculateSpamScore snap now t0 ∧
    (passAntiSpamChecks snap now st).1 = false := by
  have hall := viagra_in_allText snap h
  have hsus : containsSuspiciousContent snap = true := by
    unfold containsSuspiciousContent
    rw [List.any_eq_true]
    exact ⟨"viagra", by simp [suspiciousKeywords], hall⟩
  refine ⟨hsus, ?_, ?_⟩
  · have hkw : 1 ≤ suspiciousKeywords.countP
        (fun k => containsSeq (lowerChars k) (allTextOf snap)) := by
      have hpos : 0 < suspiciousKeywords.countP
          (fun k => containsSeq (lowerChars k) (allTextOf snap)) :=
        List.countP_pos_iff.mpr ⟨"viagra", by simp [suspiciousKeywords], hall⟩
      omega
    simp only [calculateSpamScore]
    refine Nat.le_min.mpr ⟨by omega, by omega⟩
  · by_cases hhp : trimChars snap.honeypot.data = []
    · by_cases hrl : (checkRateLimit now st).1 = true
      · simp [passAntiSpamChecks, hhp, hrl, hsus]
      · simp [passAntiSpamChecks, hhp, Bool.not_eq_true _ ▸ hrl]
    · simp [passAntiSpamChecks, hhp]

/-- Witness for C6 amended at a concrete spam message. -/
theorem viagra_always_flagged_witness :
    containsSuspiciousContent snapSpamMsg = true ∧
    20 ≤ calculateSpamScore snapSpamMsg 10000 (some 0) ∧
    (passAntiSpamChecks snapSpamMsg 10000
      { history := [], persisted := [], startTime := some 0 }).1 = false :=
  viagra_always_flagged snapSpamMsg 10000 (some 0)
    { history := [], persisted := [], startTime := some 0 } (by decide)

/-- Helper: an inert marketing placeholder has the gated type attribute
and the marketing category attribute. -/
theorem inertMarketing_fields (sc : Script) (h : inertMarketing sc = true) :
    sc.typeAttr = "text/plain" ∧ sc.category = some "marketing" := by
  unfold inertMarketing at h
  simp only [Bool.and_eq_true, beq_iff_eq] at h
  exact h

/-- Helper: with marketing consent off, the scan leaves an inert
marketing placeholder untouched. -/
theorem processScript_marketing_off (c : ConsentRecord) (sc : Script)
    (him : inertMarketing sc = true) (hm : c.marketing = false) :
    processScript c sc = sc := by
  obtain ⟨h1, h2⟩ := inertMarketing_fields sc him
  unfold processScript isGated
  rw [h1, h2]
  simp [isAllowed, hm]

/-- Helper: with marketing consent on, the scan converts an inert
marketing placeholder to its activation. -/
theorem processScript_marketing_on (c : ConsentRecord) (sc : Script)
    (him : inertMarketing sc = true) (hm : c.marketing = true) :
    processScript c sc = activateScript sc := by
  obtain ⟨h1, h2⟩ := inertMarketing_fields sc him
  unfold processScript isGated
  rw [h1, h2]
  simp [isAllowed, hm]

/-- Helper: with marketing consent on, no node of the scanned page is an
inert marketing placeholder any more. -/
theorem processScript_kills_marketing (c : ConsentRecord) (sc : Script)
    (hm : c.marketing = true) : inertMarketing (processScript c sc) = false := by
  by_cases him : inertMarketing sc = true
  · rw [processScript_marketing_on c sc him hm]
    rfl
  · have him' : inertMarketing sc = false := by
      revert him
      cases inertMarketing sc <;> simp
    unfold processScript
    split
    · split
      · rfl
      · exact him'
    · exact him'

/-- Helper: the count of inert marketing placeholders after a scan with
marketing consent on is zero. -/
theorem countInertMarketing_scan_zero (c : ConsentRecord) (page : List Script)
    (hm : c.marketing = true) :
    countInertMarketing (processGatedScripts c page) = 0 := by
  unfold countInertMarketing processGatedScripts
  rw [List.countP_eq_zero]
  intro a ha
  rw [List.mem_map] at ha
  obtain ⟨sc, _, rfl⟩ := ha
  simp [processScript_kills_marketing c sc hm]

/-- Helper: with marketing consent on, the scan converts exactly the
inert marketing placeholders, node for node. -/
theorem countP_convertedPair (c : ConsentRecord) (hm : c.marketing = true) :
    ∀ page : List Script,
      (page.zip (processGatedScripts c page)).countP convertedPair
        = countInertMarketing page := by
  intro page
  induction page with
  | nil => rfl
  | cons sc rest ih =>
    show ((sc :: rest).zip
        (processScript c sc :: processGatedScripts c rest)).countP convertedPair = _
    rw [List.zip_cons_cons, List.countP_cons]
    unfold countInertMarketing at ih ⊢
    rw [List.countP_cons]
    by_cases him : inertMarketing sc = true
    · have hconv : convertedPair (sc, processScript c sc) = true := by
        unfold convertedPair
        rw [processScript_marketing_on c sc him hm]
        simp [him]
      rw [ih, hconv, him]
    · have him' : inertMarketing sc = false := by
        revert him
        cases inertMarketing sc <;> simp
      have hconv : convertedPair (sc, processScript c sc) = false := by
        unfold convertedPair
        simp [him']
      rw [ih, hconv, him']

/-- Helper: scanning an already scanned node changes nothing. -/
theorem processScript_idem (c : ConsentRecord) (sc : Script) :
    processScript c (processScript c sc) = processScript c sc := by
  by_cases hg : isGated sc = true
  · by_cases ha : isAllowed c (sc.category.getD "") = true
    · have h1 : processScript c sc = activateScript sc := by
        unfold processScript
        simp [hg, ha]
      rw [h1]
      have h2 : isGated (activateScript sc) = false := rfl
      unfold processScript
      simp [h2]
    · have h1 : processScript c sc = sc := by
        unfold processScript
        simp [hg, ha]
      rw [h1]
      exact h1
  · have h1 : processScript c sc = sc := by
      unfold processScript
      simp [hg]
    rw [h1]
    exact h1

/-- Helper: rescanning a page with the same consent changes nothing. -/
theorem processGatedScripts_idem (c : ConsentRecord) (page : List Script) :
    processGatedScripts c (processGatedScripts c page) = processGatedScripts c page := by
  unfold processGatedScripts
  rw [List.map_map]
  refine List.map_congr_left ?_
  intro a _
  simp only [Function.comp_apply]
  exact processScript_idem c a

/-- Helper: positional view of the scan. -/
theorem processGatedScripts_getElem (c : ConsentRecord) (page : List Script) (i : Nat) :
    (processGatedScripts c page)[i]? = page[i]?.map (processScript c) := by
  unfold processGatedScripts
  exact List.getElem?_map (processScript c) page i

/-- Helper: the marketing invariant holds at module load. -/
theorem stateInv_init (stored : StoredValue) (page : List Script) :
    stateInv (initState stored page) := by
  intro _
  rfl

/-- Helper: every consent-manager operation preserves the marketing
invariant, including arbitrary records pushed through the public update
entry point. -/
theorem stateInv_applyOp (s : ConsentState) (op : ConsentOp) (h : stateInv s) :
    stateInv (applyOp s op) := by
  cases op with
  | load =>
    intro hsf
    simp only [applyOp] at hsf ⊢
    cases hst : s.stored with
    | missing =>
      rw [hst] at hsf
      simp [storedMarketingFalse] at hsf
    | corrupt =>
      rw [hst] at hsf
      simp [storedMarketingFalse] at hsf
    | parsed p =>
      rw [hst] at hsf
      simp only [storedMarketingFalse, beq_iff_eq] at hsf
      simp [loadConsent, mergeConsent, hsf]
  | acceptAll =>
    intro hsf
    simp [applyOp, acceptAll, saveConsent, toPartial, mergeConsent,
      storedMarketingFalse] at hsf
  | rejectNonEssential =>
    intro _
    rfl
  | savePreferences a m =>
    intro hsf
    simp only [applyOp, savePreferences, saveConsent, toPartial, mergeConsent,
      storedMarketingFalse, beq_iff_eq, Option.some.injEq] at hsf
    simp [applyOp, savePreferences, saveConsent, mergeConsent, hsf]
  | rescan =>
    intro hsf
    simp only [applyOp] at hsf ⊢
    exact h hsf
  | update p =>
    intro hsf
    simp only [applyOp, saveConsent, toPartial, storedMarketingFalse, beq_iff_eq,
      Option.some.injEq] at hsf
    simp only [applyOp, saveConsent]
    exact hsf

/-- Helper: the marketing invariant holds in every reachable state. -/
theorem stateInv_runOps (s : ConsentState) (ops : List ConsentOp) (h : stateInv s) :
    stateInv (runOps s ops) := by
  induction ops generalizing s with
  | nil => exact h
  | cons op rest ih => exact ih (applyOp s op) (stateInv_applyOp s op h)

/-- Helper: a step whose resulting stored record says `marketing: false`
preserves every inert marketing placeholder, provided the invariant held
before the step. -/
theorem step_preserves_marketing (s : ConsentState) (op : ConsentOp)
    (hinv : stateInv s) (hsf : storedMarketingFalse (applyOp s op).stored = true)
    (i : Nat) (sc : Script) (hi : s.page[i]? = some sc)
    (him : inertMarketing sc = true) :
    (applyOp s op).page[i]? = some sc := by
  cases op with
  | load => exact hi
  | update p => exact hi
  | acceptAll =>
    exfalso
    simp [applyOp, acceptAll, saveConsent, toPartial, mergeConsent,
      storedMarketingFalse] at hsf
  | rejectNonEssential =>
    have hm : (mergeConsent s.consent
        { necessary := some true, analytics := some false, marketing := some false }).marketing
        = false := rfl
    simp only [applyOp, rejectNonEssential, saveConsent]
    rw [processGatedScripts_getElem, hi]
    simp [processScript_marketing_off _ sc him hm]
  | savePreferences a m =>
    have hm0 : m = false := by
      simpa [applyOp, savePreferences, saveConsent, toPartial, mergeConsent,
        storedMarketingFalse] using hsf
    subst hm0
    have hm : (mergeConsent s.consent
        { necessary := some true, analytics := some a, marketing := some false }).marketing
        = false := rfl
    simp only [applyOp, savePreferences, saveConsent]
    rw [processGatedScripts_getElem, hi]
    simp [processScript_marketing_off _ sc him hm]
  | rescan =>
    have hm : s.consent.marketing = false := hinv (by simpa [applyOp] using hsf)
    simp only [applyOp]
    rw [processGatedScripts_getElem, hi]
    simp [processScript_marketing_off _ sc him hm]

/-- Helper: if rescanning does not change the page, the rescan operation
is the identity on the whole state. -/
theorem rescan_noop (s : ConsentState)
    (h : processGatedScripts s.consent s.page = s.page) :
    applyOp s ConsentOp.rescan = s := by
  simp only [applyOp]
  rw [h]

/-- C1: (safety) in every run of consent-manager operations from module
load, a step after which the stored record still says `marketing: false`
leaves every inert marketing placeholder untouched — a marketing
placeholder is never converted while the stored record has marketing
false; (conversion) saving a choice with marketing true converts the
single inert marketing placeholder of the page into exactly one active
script, leaves zero inert marketing placeholders, and an extra rescan
changes nothing because the scan only matches placeholders still in
inert form. -/
theorem marketing_gating :
    (∀ (stored : StoredValue) (page : List Script) (ops : List ConsentOp)
        (op : ConsentOp) (i : Nat) (sc : Script),
      storedMarketingFalse (applyOp (runOps (initState stored page) ops) op).stored = true →
      (runOps (initState stored page) ops).page[i]? = some sc →
      inertMarketing sc = true →
      (applyOp (runOps (initState stored page) ops) op).page[i]? = some sc) ∧
    (∀ (s : ConsentState) (a : Bool) (i : Nat) (sc : Script),
      s.page[i]? = some sc → inertMarketing sc = true →
      countInertMarketing s.page = 1 →
      (savePreferences s a true).page[i]? = some (activateScript sc) ∧
      countInertMarketing (savePreferences s a true).page = 0 ∧
      (s.page.zip (savePreferences s a true).page).countP convertedPair = 1 ∧
      applyOp (savePreferences s a true) ConsentOp.rescan = savePreferences s a true) := by
  constructor
  · intro stored page ops op i sc hsf hi him
    exact step_preserves_marketing _ op
      (stateInv_runOps _ ops (stateInv_init stored page)) hsf i sc hi him
  · intro s a i sc hi him hcount
    have hm : (mergeConsent s.consent
        { necessary := some true, analytics := some a, marketing := some true }).marketing
        = true := rfl
    have hpage : (savePreferences s a true).page
        = processGatedScripts (mergeConsent s.consent
            { necessary := some true, analytics := some a, marketing := some true })
          s.page := rfl
    refine ⟨?_, ?_, ?_, ?_⟩
    · rw [hpage, processGatedScripts_getElem, hi]
      simp [processScript_marketing_on _ sc him hm]
    · rw [hpage]
      exact countInertMarketing_scan_zero _ _ hm
    · rw [hpage, countP_convertedPair _ hm s.page, hcount]
    · apply rescan_noop
      have hc : (savePreferences s a true).consent = mergeConsent s.consent
          { necessary := some true, analytics := some a, marketing := some true } := rfl
      rw [hpage, hc]
      exact processGatedScripts_idem _ _

/-- Witness for C1: a page with one marketing placeholder, a stored
record saying marketing false for the safety part, and a custom save
with marketing true for the conversion part. -/
theorem marketing_gating_witness :
    (applyOp (runOps (initState
        (.parsed { necessary := none, analytics := none, marketing := some false })
        [mktScript]) []) ConsentOp.rescan).page[0]? = some mktScript ∧
    (savePreferences (initState .missing [mktScript]) false true).page[0]?
      = some (activateScript mktScript) ∧
    countInertMarketing (savePreferences (initState .missing [mktScript]) false true).page
      = 0 ∧
    ((initState .missing [mktScript]).page.zip
      (savePreferences (initState .missing [mktScript]) false true).page).countP
        convertedPair = 1 ∧
    applyOp (savePreferences (initState .missing [mktScript]) false true) ConsentOp.rescan
      = savePreferences (initState .missing [mktScript]) false true := by
  refine ⟨?_, ?_⟩
  · exact marketing_gating.1
      (.parsed { necessary := none, analytics := none, marketing := some false })
      [mktScript] [] ConsentOp.rescan 0 mktScript (by decide) (by decide) (by decide)
  · exact marketing_gating.2 (initState .missing [mktScript]) false 0 mktScript
      (by decide) (by decide) (by decide)

/-- C4 counterexample: the public update entry point merges arbitrary
records into the current consent, so pushing `necessary: false` through
it makes the in-memory record's necessary category false — the claimed
invariant fails for such a sequence. -/
theorem update_breaks_necessary :
    (runOps (initState .missing [])
      [ConsentOp.update { necessary := some false, analytics := none, marketing := none }]
      ).consent.necessary = false := by
  decide

/-- Helper: operations that never push `necessary: false` preserve the
necessary-category invariant. -/
theorem necInv_applyOp (s : ConsentState) (op : ConsentOp) (h : necInv s)
    (hop : goodOp op = true) : necInv (applyOp s op) := by
  obtain ⟨hc, hs⟩ := h
  cases op with
  | load =>
    constructor
    · simp only [applyOp]
      cases hst : s.stored with
      | missing => exact hc
      | corrupt => exact hc
      | parsed p =>
        rw [hst] at hs
        cases hp : p.necessary with
        | none => simp [loadConsent, mergeConsent, hp, hc]
        | some b =>
          cases b with
          | true => simp [loadConsent, mergeConsent, hp]
          | false => simp [storedNecOk, hp] at hs
    · simpa [applyOp] using hs
  | acceptAll => exact ⟨rfl, rfl⟩
  | rejectNonEssential => exact ⟨rfl, rfl⟩
  | savePreferences a m => exact ⟨rfl, rfl⟩
  | rescan => exact ⟨hc, hs⟩
  | update p =>
    have hp : p.necessary ≠ some false := by
      simpa [goodOp] using hop
    have hnec : (mergeConsent s.consent p).necessary = true := by
      cases hpn : p.necessary with
      | none => simp [mergeConsent, hpn, hc]
      | some b =>
        cases b with
        | true => simp [mergeConsent, hpn]
        | false => exact absurd hpn hp
    constructor
    · exact hnec
    · simp [applyOp, saveConsent, storedNecOk, toPartial, hnec]

/-- C4 amended: provided neither the persisted value nor any record
pushed through the public update entry point sets `necessary` to false,
every reachable in-memory record has necessary true; and independently
of any record, the category-allowed query answers true for `necessary`.
The unrestricted claim fails because `saveConsent` merges arbitrary
records (see the counterexample). -/
theorem necessary_invariant (stored : StoredValue) (page : List Script)
    (ops : List ConsentOp) (hstored : storedNecOk stored = true)
    (hops : ∀ op ∈ ops, goodOp op = true) :
    (runOps (initState stored page) ops).consent.necessary = true ∧
    (∀ c : ConsentRecord, isAllowed c "necessary" = true) := by
  constructor
  · have hrun : ∀ (l : List ConsentOp) (s : ConsentState), necInv s →
        (∀ op ∈ l, goodOp op = true) → necInv (runOps s l) := by
      intro l
      induction l with
      | nil => intro s h _; exact h
      | cons op rest ih =>
        intro s h hl
        exact ih (applyOp s op) (necInv_applyOp s op h (hl op (by simp)))
          (fun o ho => hl o (by simp [ho]))
    exact (hrun ops (initState stored page) ⟨rfl, hstored⟩ hops).1
  · intro c
    rfl

/-- Witness for C4 amended: accept-all followed by a benign update keeps
necessary true. -/
theorem necessary_invariant_witness :
    (runOps (initState .missing [])
      [ConsentOp.acceptAll,
       ConsentOp.update { necessary := some true, analytics := some false, marketing := none }]
      ).consent.necessary = true :=
  (necessary_invariant .missing []
    [ConsentOp.acceptAll,
     ConsentOp.update { necessary := some true, analytics := some false, marketing := none }]
    (by decide) (by decide)).1
